import Mathlib

/-!
Verification development for the playground query executor
(src/libs/python/playground_query_executor.py) and its Glue job driver
(src/etl_athena_load_api.py).

The Python class PlaygroundQueryExecutor is shallowly embedded:
HTTP responses become a record of status code, reason text and a JSON
parse result; the remote service becomes a stream of such responses
indexed by the order of the status GET calls; sleeps and GET calls are
recorded as an explicit event trace; every raised Python exception is
modelled by its single constructor argument, an Option String
(Exception(None) gives none, Exception(s) gives some s), since the
source raises only the generic built-in Exception everywhere.
-/

/-- Parsed JSON body of a remote response: the fields the executor reads
(QueryId on submission, QueryStatus / Message / ResultsDownloadLink on
polls).  Each is optional, mirroring dict.get on a Python dict. -/
structure ApiData where
  queryId : Option String
  queryStatus : Option String
  message : Option String
  resultsDownloadLink : Option String
  deriving Repr, DecidableEq

instance {α β : Type} [DecidableEq α] [DecidableEq β] :
    DecidableEq (Except α β) := fun a b =>
  match a, b with
  | Except.ok x, Except.ok y =>
      if h : x = y then isTrue (by rw [h])
      else isFalse (by intro he; cases he; exact h rfl)
  | Except.error x, Except.error y =>
      if h : x = y then isTrue (by rw [h])
      else isFalse (by intro he; cases he; exact h rfl)
  | Except.ok _, Except.error _ => isFalse (by intro he; cases he)
  | Except.error _, Except.ok _ => isFalse (by intro he; cases he)

/-- A response of the requests library as the executor observes it:
the HTTP status code, the reason text, and the result of response.json()
(Except.error carries the text of the parse exception). -/
structure HttpResponse where
  status_code : Nat
  reason : String
  json : Except String ApiData
  deriving Repr, DecidableEq

/-- The custom dict built by PlaygroundQueryExecutor._custom_json_response
(source lines 53-85): exitcode, message and data keys.  The response key
only echoes the input response and is omitted. -/
structure JsonResp where
  exitcode : Nat
  message : String
  data : Option ApiData
  deriving Repr, DecidableEq

/-- PlaygroundQueryExecutor._custom_json_response on a requests response
(the hasattr branch; the executor only ever passes requests responses).
A response.json() failure anywhere in the try block lands in the except
clause with exitcode 1. -/
def custom_json_response (r : HttpResponse) : JsonResp :=
  match r.json with
  | Except.ok d =>
      if r.status_code = 200 then
        { exitcode := 0, message := "Success", data := some d }
      else
        { exitcode := r.status_code,
          message := "Failed with error " ++ r.reason,
          data := some d }
  | Except.error ex =>
      { exitcode := 1,
        message := "Failed to parse response: " ++ ex,
        data := none }

/-- PlaygroundQueryExecutor._safe_api_call (source lines 87-95): build the
custom json response and raise when its exitcode is nonzero.  The raised
Exception message is modelled as the error of the Except. -/
def safe_api_call (r : HttpResponse) : Except String JsonResp :=
  let json_resp := custom_json_response r
  if json_resp.exitcode ≠ 0 then
    Except.error ("API call failed: " ++ json_resp.message)
  else
    Except.ok json_resp

/-- Reading json_resp data as the executor does with response data
subscripting.  Whenever safe_api_call succeeds the data field is some,
so the fallback record is never read (safe_api_call_ok_data below). -/
def dataOf (j : JsonResp) : ApiData :=
  j.data.getD { queryId := none, queryStatus := none,
                message := none, resultsDownloadLink := none }

/-- The standard base64 alphabet as used by Python base64.b64encode:
indices 0-25 map to uppercase letters, 26-51 to lowercase letters,
52-61 to digits, 62 to the plus sign and 63 to the slash. -/
def b64Char (n : Nat) : Char :=
  if n < 26 then Char.ofNat (65 + n)
  else if n < 52 then Char.ofNat (97 + (n - 26))
  else if n < 62 then Char.ofNat (48 + (n - 52))
  else if n = 62 then '+'
  else '/'

/-- Index of a character in the standard base64 alphabet (inverse of
b64Char on indices below 64); the padding sign is handled before this
function is consulted. -/
def b64Index (c : Char) : Nat :=
  if 65 ≤ c.toNat ∧ c.toNat ≤ 90 then c.toNat - 65
  else if 97 ≤ c.toNat ∧ c.toNat ≤ 122 then c.toNat - 97 + 26
  else if 48 ≤ c.toNat ∧ c.toNat ≤ 57 then c.toNat - 48 + 52
  else if c = '+' then 62
  else 63

/-- Standard base64 encoding of a byte list, three bytes to four
characters with padding, exactly as base64.b64encode produces
(source line 111). -/
def b64EncodeChunks : List Nat → List Char
  | [] => []
  | [b1] =>
      [b64Char (b1 / 4), b64Char (b1 % 4 * 16), '=', '=']
  | [b1, b2] =>
      [b64Char (b1 / 4), b64Char (b1 % 4 * 16 + b2 / 16),
       b64Char (b2 % 16 * 4), '=']
  | b1 :: b2 :: b3 :: rest =>
      b64Char (b1 / 4) :: b64Char (b1 % 4 * 16 + b2 / 16) ::
      b64Char (b2 % 16 * 4 + b3 / 64) :: b64Char (b3 % 64) ::
      b64EncodeChunks rest

/-- Standard base64 decoding, four characters to three bytes, with the
two padded final-group forms. -/
def b64DecodeChunks : List Char → List Nat
  | c1 :: c2 :: c3 :: c4 :: rest =>
      if c3 = '=' then
        [b64Index c1 * 4 + b64Index c2 / 16]
      else if c4 = '=' then
        [b64Index c1 * 4 + b64Index c2 / 16,
         b64Index c2 % 16 * 16 + b64Index c3 / 4]
      else
        (b64Index c1 * 4 + b64Index c2 / 16) ::
        (b64Index c2 % 16 * 16 + b64Index c3 / 4) ::
        (b64Index c3 % 4 * 64 + b64Index c4) ::
        b64DecodeChunks rest
  | _ => []

/-- Python str.encode with the ascii codec (source line 110): the byte
list of the code points when all are below 128, otherwise a
UnicodeEncodeError, modelled as none. -/
def ascii_encode (s : String) : Option (List Nat) :=
  if s.data.all (fun c => c.toNat < 128) then
    some (s.data.map Char.toNat)
  else
    none

/-- Decoding a byte list back to text, as bytes.decode does. -/
def ascii_decode (bytes : List Nat) : String :=
  String.mk (bytes.map Char.ofNat)

/-- PlaygroundQueryExecutor.build_query_payload (source lines 97-132),
with the payload modelled as the ordered field list of the dict handed
to json.dumps.  The query text is ascii-encoded, base64-encoded, and
placed in the QueryString field; the athena target carries WorkGroup
and AssumeRole, any other target carries QueryTargetLocation. -/
def build_query_payload (query work_group query_target_location
    assume_role : String) : Option (List (String × String)) :=
  match ascii_encode query with
  | none => none
  | some query_bytes =>
    let query_base64_string := String.mk (b64EncodeChunks query_bytes)
    if query_target_location = "athena" then
      some [("QueryString", query_base64_string),
            ("Encoding", "base64"),
            ("WorkGroup", work_group),
            ("AssumeRole", assume_role)]
    else
      some [("QueryString", query_base64_string),
            ("Encoding", "base64"),
            ("QueryTargetLocation", query_target_location)]

/-- Observable actions of the polling loop: a status GET (numbered in
order of issue, 0 for the warm-up poll) and a sleep of a duration in
time-units. -/
inductive PollEvent where
  | statusGet : Nat → PollEvent
  | sleep : Nat → PollEvent
  deriving Repr, DecidableEq

/-- Number of status GET calls in an event trace. -/
def numGets (evs : List PollEvent) : Nat :=
  evs.countP (fun e => match e with
    | PollEvent.statusGet _ => true
    | _ => false)

/-- The while loop of PlaygroundQueryExecutor.poll_query_status (source
lines 180-198).  The source loops while query_status is RUNNING and the
counter retry (starting at 1) satisfies retry <= self.retry; here
budget = self.retry + 1 - retry counts the remaining permitted
iterations, so the loop is entered with budget = self.retry.  The
stream responses gives the successive remote GET responses, i being
the index of the next GET.  The loop body issues a GET through
safe_api_call (a failure aborts the loop with that error), returns the
new response immediately when its status is not RUNNING, and otherwise
sleeps the configured delay and continues; on exhaustion the last
response is returned. -/
def poll_loop (delay : Nat) (responses : Nat → HttpResponse) :
    Nat → Nat → Option String → JsonResp →
    List PollEvent × Except String JsonResp
  | Nat.succ budget, i, query_status, response =>
      if query_status = some "RUNNING" then
        match safe_api_call (responses i) with
        | Except.error e => ([PollEvent.statusGet i], Except.error e)
        | Except.ok j =>
            if (dataOf j).queryStatus ≠ some "RUNNING" then
              ([PollEvent.statusGet i], Except.ok j)
            else
              let r := poll_loop delay responses budget (i + 1)
                ((dataOf j).queryStatus) j
              (PollEvent.statusGet i :: PollEvent.sleep delay :: r.1, r.2)
      else ([], Except.ok response)
  | 0, _, _, response => ([], Except.ok response)

/-- PlaygroundQueryExecutor.poll_query_status (source lines 156-198):
one initial status GET, an unconditional 20 time-unit warm-up sleep,
then the retry loop with retry starting at 1 (so self_retry permitted
iterations).  Result is the event trace together with the returned
response or the raised exception message. -/
def poll_query_status (self_retry delay : Nat)
    (responses : Nat → HttpResponse) :
    List PollEvent × Except String JsonResp :=
  match safe_api_call (responses 0) with
  | Except.error e => ([PollEvent.statusGet 0], Except.error e)
  | Except.ok j =>
      let r := poll_loop delay responses self_retry 1
        ((dataOf j).queryStatus) j
      (PollEvent.statusGet 0 :: PollEvent.sleep 20 :: r.1, r.2)

/-- PlaygroundQueryExecutor.run (source lines 200-223): build and submit
(submitResp is the remote response to the submission POST), subscript
QueryId out of the parsed body (a missing key raises KeyError), poll,
then classify the final QueryStatus (again a hard subscript):
SUCCEEDED and RUNNING responses are returned normally, any other
status raises Exception with the optional remote Message as its
argument.  The error side is the Python exception argument: some text
for Exception(text), none for Exception(None). -/
def run (self_retry delay : Nat) (submitResp : HttpResponse)
    (responses : Nat → HttpResponse) :
    List PollEvent × Except (Option String) JsonResp :=
  match safe_api_call submitResp with
  | Except.error e => ([], Except.error (some e))
  | Except.ok sj =>
      match (dataOf sj).queryId with
      | none => ([], Except.error (some "KeyError: QueryId"))
      | some _ =>
          let pr := poll_query_status self_retry delay responses
          match pr.2 with
          | Except.error e => (pr.1, Except.error (some e))
          | Except.ok j =>
              match (dataOf j).queryStatus with
              | none => (pr.1, Except.error (some "KeyError: QueryStatus"))
              | some st =>
                  if st = "SUCCEEDED" then (pr.1, Except.ok j)
                  else if st = "RUNNING" then (pr.1, Except.ok j)
                  else (pr.1, Except.error ((dataOf j).message))

/-- pandas read_csv on the downloaded text, reduced to the split into
lines and comma-separated cells that the claims need. -/
def read_csv (body : String) : List (List String) :=
  (body.splitOn "\x0a").map (fun line => line.splitOn ",")

/-- The status classification inside
PlaygroundQueryExecutor.fetch_query_results after run returns (source
lines 237-254): SUCCEEDED downloads and parses the link, RUNNING raises
Exception with the fixed still-running text, FAILED raises Exception
with the remote message or the Unknown error default, and any other
status prints the status and message and returns no data.  The first
component collects the printed lines. -/
def fetch_classify (download : String → String) (j : JsonResp) :
    List String × Except (Option String) (Option (List (List String))) :=
  match (dataOf j).queryStatus with
  | none => ([], Except.error (some "KeyError: QueryStatus"))
  | some st =>
      if st = "SUCCEEDED" then
        match (dataOf j).resultsDownloadLink with
        | none => ([], Except.error (some "KeyError: ResultsDownloadLink"))
        | some link => ([], Except.ok (some (read_csv (download link))))
      else if st = "RUNNING" then
        ([], Except.error (some "Query still running after retries."))
      else if st = "FAILED" then
        ([], Except.error (some ((dataOf j).message.getD "Unknown error")))
      else
        (["Query Status: " ++ st ++ " | Message: "
            ++ ((dataOf j).message.getD "")],
         Except.ok none)

/-- PlaygroundQueryExecutor.fetch_query_results (source lines 224-254):
run the full execution, propagate its exception if it raises, and
otherwise classify the returned snapshot. -/
def fetch_query_results (self_retry delay : Nat)
    (submitResp : HttpResponse) (responses : Nat → HttpResponse)
    (download : String → String) :
    List String × Except (Option String) (Option (List (List String))) :=
  match (run self_retry delay submitResp responses).2 with
  | Except.error e => ([], Except.error e)
  | Except.ok j => fetch_classify download j

/-- The configuration scalars a PlaygroundQueryExecutor instance holds
(the api, query and logger fields carry no retry semantics and are not
modelled). -/
structure ExecutorConfig where
  work_group : String
  query_target_location : String
  assume_role : String
  retry : Nat
  delay : Nat
  deriving Repr, DecidableEq

/-- Parameter resolution of PlaygroundQueryExecutor.__init__ (source
lines 23-51): none models an argument the caller does not supply, and
the constructor defaults are work_group primary, target athena,
assume_role no, retry 5 and delay 60. -/
def executor_init (work_group query_target_location
    assume_role : Option String) (retry delay : Option Nat) :
    ExecutorConfig :=
  { work_group := work_group.getD "primary",
    query_target_location := query_target_location.getD "athena",
    assume_role := assume_role.getD "no",
    retry := retry.getD 5,
    delay := delay.getD 60 }

/-- The optional_args resolution in main of src/etl_athena_load_api.py
(lines 221-233): when the job arguments do not carry
query_status_retry, the value 20 is used. -/
def main_resolved_retry (arg : Option Nat) : Nat := arg.getD 20

/-- As main_resolved_retry, for query_status_retry_delay with
default 15. -/
def main_resolved_delay (arg : Option Nat) : Nat := arg.getD 15

/-- The executor main builds through execute_db_query (lines 236-244 and
189-198): every scalar is passed explicitly, with the job-level
defaults applied when the job arguments omit them. -/
def main_executor (retryArg delayArg : Option Nat) : ExecutorConfig :=
  executor_init (some "primary") (some "athena") (some "no")
    (some (main_resolved_retry retryArg))
    (some (main_resolved_delay delayArg))

/-- A successful submission response carrying a QueryId. -/
def submit_ok_response : HttpResponse :=
  HttpResponse.mk 200 "OK"
    (Except.ok (ApiData.mk (some "q-1") none none none))

/-- The parsed json response for submit_ok_response. -/
def submit_json : JsonResp :=
  JsonResp.mk 0 "Success" (some (ApiData.mk (some "q-1") none none none))

/-- A status GET response reporting RUNNING. -/
def status_running_response : HttpResponse :=
  HttpResponse.mk 200 "OK"
    (Except.ok (ApiData.mk none (some "RUNNING") none none))

/-- The parsed json response for status_running_response. -/
def running_json : JsonResp :=
  JsonResp.mk 0 "Success"
    (some (ApiData.mk none (some "RUNNING") none none))

/-- A status GET response reporting SUCCEEDED with a download link. -/
def status_succeeded_response : HttpResponse :=
  HttpResponse.mk 200 "OK"
    (Except.ok (ApiData.mk none (some "SUCCEEDED") none
      (some "https-results-link")))

/-- The parsed json response for status_succeeded_response. -/
def succeeded_json : JsonResp :=
  JsonResp.mk 0 "Success"
    (some (ApiData.mk none (some "SUCCEEDED") none
      (some "https-results-link")))

/-- A status GET response reporting FAILED whose remote Message equals
the fixed still-running exception text of fetch_query_results. -/
def status_failed_still_response : HttpResponse :=
  HttpResponse.mk 200 "OK"
    (Except.ok (ApiData.mk none (some "FAILED")
      (some "Query still running after retries.") none))

/-- A status GET response reporting FAILED with no Message. -/
def status_failed_no_msg_response : HttpResponse :=
  HttpResponse.mk 200 "OK"
    (Except.ok (ApiData.mk none (some "FAILED") none none))

/-- A status GET response reporting FAILED with Message syntax error. -/
def status_failed_msg_response : HttpResponse :=
  HttpResponse.mk 200 "OK"
    (Except.ok (ApiData.mk none (some "FAILED") (some "syntax error")
      none))

/-- A status GET response with the unrecognized status CANCELLED and a
Message. -/
def status_cancelled_response : HttpResponse :=
  HttpResponse.mk 200 "OK"
    (Except.ok (ApiData.mk none (some "CANCELLED") (some "halted") none))

/-- The parsed json response for status_cancelled_response. -/
def cancelled_json : JsonResp :=
  JsonResp.mk 0 "Success"
    (some (ApiData.mk none (some "CANCELLED") (some "halted") none))

/-- A submission response with status code 201 and a well-formed body. -/
def created_response : HttpResponse :=
  HttpResponse.mk 201 "Created"
    (Except.ok (ApiData.mk (some "q-1") none none none))

/-- The response stream of a query that reports RUNNING on the warm-up
poll and SUCCEEDED on the first retry GET. -/
def early_stop_responses (i : Nat) : HttpResponse :=
  if i = 0 then status_running_response else status_succeeded_response

/-- The response stream of a query whose warm-up poll reports RUNNING
and whose first retry GET comes back with status code 201. -/
def poll_fail_responses (i : Nat) : HttpResponse :=
  if i = 0 then status_running_response else created_response

theorem safe_api_call_ok_data (r : HttpResponse) (j : JsonResp)
    (h : safe_api_call r = Except.ok j) : j.data = some (dataOf j) := by
  unfold safe_api_call at h
  by_cases hz : (custom_json_response r).exitcode ≠ 0
  · simp [hz] at h
  · simp [hz] at h
    subst h
    cases hj : r.json with
    | ok d =>
        unfold custom_json_response
        by_cases h200 : r.status_code = 200 <;> simp [hj, h200, dataOf]
    | error ex =>
        exfalso
        apply hz
        unfold custom_json_response
        simp [hj]

theorem b64Index_b64Char : ∀ k, k < 64 → b64Index (b64Char k) = k := by
  decide

theorem b64Char_ne_pad : ∀ k, k < 64 → b64Char k ≠ '=' := by
  decide

theorem group_div (r s c : Nat) (hc : 0 < c) (hs : s < c) :
    (r * c + s) / c = r := by
  rw [Nat.add_comm, Nat.add_mul_div_right _ _ hc, Nat.div_eq_of_lt hs,
    Nat.zero_add]

theorem group_mod (r s c : Nat) (hs : s < c) : (r * c + s) % c = s := by
  rw [Nat.add_comm, Nat.add_mul_mod_self_right, Nat.mod_eq_of_lt hs]

/-- Decoding inverts encoding on every byte list. -/
theorem b64_roundtrip : ∀ bs : List Nat, (∀ b ∈ bs, b < 256) →
    b64DecodeChunks (b64EncodeChunks bs) = bs
  | [], _ => rfl
  | [b1], h => by
      have hb1 : b1 < 256 := h b1 (by simp)
      have h1 : b1 / 4 < 64 := by omega
      have h2 : b1 % 4 * 16 < 64 := by omega
      have e1 : b1 % 4 * 16 / 16 = b1 % 4 := by
        have h0 := group_div (b1 % 4) 0 16 (by omega) (by omega)
        rw [Nat.add_zero] at h0
        exact h0
      simp only [b64EncodeChunks, b64DecodeChunks]
      rw [if_true, b64Index_b64Char _ h1, b64Index_b64Char _ h2, e1]
      simp only [List.cons.injEq, and_true]
      omega
  | [b1, b2], h => by
      have hb1 : b1 < 256 := h b1 (by simp)
      have hb2 : b2 < 256 := h b2 (by simp)
      have h1 : b1 / 4 < 64 := by omega
      have h2 : b1 % 4 * 16 + b2 / 16 < 64 := by omega
      have h3 : b2 % 16 * 4 < 64 := by omega
      have e2 : (b1 % 4 * 16 + b2 / 16) / 16 = b1 % 4 :=
        group_div _ _ 16 (by norm_num) (by omega)
      have e3 : (b1 % 4 * 16 + b2 / 16) % 16 = b2 / 16 :=
        group_mod _ _ 16 (by omega)
      have e4 : b2 % 16 * 4 / 4 = b2 % 16 := by
        have h0 := group_div (b2 % 16) 0 4 (by omega) (by omega)
        rw [Nat.add_zero] at h0
        exact h0
      simp only [b64EncodeChunks, b64DecodeChunks]
      rw [if_neg (b64Char_ne_pad _ h3), if_true,
        b64Index_b64Char _ h1, b64Index_b64Char _ h2,
        b64Index_b64Char _ h3, e2, e3, e4]
      simp only [List.cons.injEq, and_true]
      exact ⟨by omega, by omega⟩
  | b1 :: b2 :: b3 :: rest, h => by
      have hb1 : b1 < 256 := h b1 (by simp)
      have hb2 : b2 < 256 := h b2 (by simp)
      have hb3 : b3 < 256 := h b3 (by simp)
      have h1 : b1 / 4 < 64 := by omega
      have h2 : b1 % 4 * 16 + b2 / 16 < 64 := by omega
      have h3 : b2 % 16 * 4 + b3 / 64 < 64 := by omega
      have h4 : b3 % 64 < 64 := by omega
      have e2 : (b1 % 4 * 16 + b2 / 16) / 16 = b1 % 4 :=
        group_div _ _ 16 (by norm_num) (by omega)
      have e3 : (b1 % 4 * 16 + b2 / 16) % 16 = b2 / 16 :=
        group_mod _ _ 16 (by omega)
      have e5 : (b2 % 16 * 4 + b3 / 64) / 4 = b2 % 16 :=
        group_div _ _ 4 (by norm_num) (by omega)
      have e6 : (b2 % 16 * 4 + b3 / 64) % 4 = b3 / 64 :=
        group_mod _ _ 4 (by omega)
      have ih := b64_roundtrip rest (fun b hb => h b (by simp [hb]))
      simp only [b64EncodeChunks, b64DecodeChunks]
      rw [if_neg (b64Char_ne_pad _ h3), if_neg (b64Char_ne_pad _ h4),
        b64Index_b64Char _ h1, b64Index_b64Char _ h2,
        b64Index_b64Char _ h3, b64Index_b64Char _ h4, e2, e3, e5, e6]
      simp only [List.cons.injEq]
      exact ⟨by omega, by omega, by omega, ih⟩

theorem ascii_decode_encode (l : List Char) :
    ascii_decode (l.map Char.toNat) = String.mk l := by
  unfold ascii_decode
  rw [List.map_map]
  congr 1
  exact List.map_congr_left (fun c _ => Char.ofNat_toNat c) |>.trans
    (List.map_id l)

/-- C4: for every ASCII SQL string, base64-decoding the QueryString
field of the payload produced by build_query_payload reproduces the
original SQL text exactly, for either target location. -/
theorem payload_query_string_roundtrip (query work_group
    query_target_location assume_role : String)
    (hascii : ∀ c ∈ query.data, c.toNat < 128) :
    ∃ p enc,
      build_query_payload query work_group query_target_location
          assume_role = some p ∧
      p.lookup "QueryString" = some enc ∧
      ascii_decode (b64DecodeChunks enc.data) = query := by
  have henc : ascii_encode query = some (query.data.map Char.toNat) := by
    unfold ascii_encode
    rw [if_pos]
    exact List.all_eq_true.mpr (fun c hc => decide_eq_true (hascii c hc))
  have hbytes : ∀ b ∈ query.data.map Char.toNat, b < 256 := by
    intro b hb
    obtain ⟨c, hc, rfl⟩ := List.mem_map.mp hb
    have := hascii c hc
    omega
  have hround := b64_roundtrip (query.data.map Char.toNat) hbytes
  have hdec : ascii_decode (b64DecodeChunks
      (String.mk (b64EncodeChunks (query.data.map Char.toNat))).data)
        = query := by
    rw [show (String.mk (b64EncodeChunks (query.data.map Char.toNat))).data
          = b64EncodeChunks (query.data.map Char.toNat) from rfl]
    rw [hround, ascii_decode_encode]
  by_cases ht : query_target_location = "athena"
  · refine ⟨[("QueryString",
        String.mk (b64EncodeChunks (query.data.map Char.toNat))),
        ("Encoding", "base64"), ("WorkGroup", work_group),
        ("AssumeRole", assume_role)],
      String.mk (b64EncodeChunks (query.data.map Char.toNat)), ?_, ?_, hdec⟩
    · unfold build_query_payload
      rw [henc]
      simp [ht]
    · simp [List.lookup]
  · refine ⟨[("QueryString",
        String.mk (b64EncodeChunks (query.data.map Char.toNat))),
        ("Encoding", "base64"),
        ("QueryTargetLocation", query_target_location)],
      String.mk (b64EncodeChunks (query.data.map Char.toNat)), ?_, ?_, hdec⟩
    · unfold build_query_payload
      rw [henc]
      simp [ht]
    · simp [List.lookup]

/-- C5: a payload built for the athena target carries exactly the fields
QueryString, Encoding, WorkGroup, AssumeRole; a payload built for any
other target carries exactly QueryString, Encoding,
QueryTargetLocation; beyond the common pair the two field sets are
mutually exclusive. -/
theorem payload_field_sets (query work_group query_target_location
    assume_role : String)
    (hascii : ∀ c ∈ query.data, c.toNat < 128)
    (ht : query_target_location ≠ "athena") :
    ∃ p1 p2,
      build_query_payload query work_group "athena" assume_role = some p1 ∧
      build_query_payload query work_group query_target_location
          assume_role = some p2 ∧
      p1.map Prod.fst = ["QueryString", "Encoding", "WorkGroup",
        "AssumeRole"] ∧
      p2.map Prod.fst = ["QueryString", "Encoding",
        "QueryTargetLocation"] ∧
      (∀ k, (k ∈ p1.map Prod.fst ∧ k ∈ p2.map Prod.fst) ↔
        (k = "QueryString" ∨ k = "Encoding")) := by
  have henc : ascii_encode query = some (query.data.map Char.toNat) := by
    unfold ascii_encode
    rw [if_pos]
    exact List.all_eq_true.mpr (fun c hc => decide_eq_true (hascii c hc))
  refine ⟨[("QueryString",
      String.mk (b64EncodeChunks (query.data.map Char.toNat))),
      ("Encoding", "base64"), ("WorkGroup", work_group),
      ("AssumeRole", assume_role)],
    [("QueryString",
      String.mk (b64EncodeChunks (query.data.map Char.toNat))),
      ("Encoding", "base64"),
      ("QueryTargetLocation", query_target_location)],
    ?_, ?_, ?_, ?_, ?_⟩
  · unfold build_query_payload
    rw [henc]
    simp
  · unfold build_query_payload
    rw [henc]
    simp [ht]
  · simp
  · simp
  · intro k
    constructor
    · rintro ⟨h1, h2⟩
      simp at h1 h2
      rcases h2 with h2 | h2 | h2
      · exact Or.inl h2
      · exact Or.inr h2
      · rcases h1 with h1 | h1 | h1 | h1 <;> simp_all
    · rintro (rfl | rfl) <;> simp

theorem numGets_nil : numGets [] = 0 := rfl

theorem numGets_get (i : Nat) (l : List PollEvent) :
    numGets (PollEvent.statusGet i :: l) = numGets l + 1 := by
  simp [numGets, List.countP_cons]

theorem numGets_sleep (d : Nat) (l : List PollEvent) :
    numGets (PollEvent.sleep d :: l) = numGets l := by
  simp [numGets, List.countP_cons]

theorem poll_loop_stops (delay : Nat) (responses : Nat → HttpResponse) :
    ∀ (n i budget : Nat) (resp jk : JsonResp),
    (∀ t, t < n → ∃ jj, safe_api_call (responses (i + t)) = Except.ok jj ∧
        (dataOf jj).queryStatus = some "RUNNING") →
    safe_api_call (responses (i + n)) = Except.ok jk →
    (dataOf jk).queryStatus ≠ some "RUNNING" →
    n < budget →
    (poll_loop delay responses budget i (some "RUNNING") resp).2
        = Except.ok jk ∧
    numGets (poll_loop delay responses budget i
        (some "RUNNING") resp).1 = n + 1 := by
  intro n
  induction n with
  | zero =>
      intro i budget resp jk hrun hk hnr hb
      cases budget with
      | zero => omega
      | succ b =>
          rw [Nat.add_zero] at hk
          simp only [poll_loop, eq_self_iff_true, if_true, hk]
          rw [if_pos hnr]
          exact ⟨rfl, by simp [numGets_get, numGets_nil]⟩
  | succ n ih =>
      intro i budget resp jk hrun hk hnr hb
      cases budget with
      | zero => omega
      | succ b =>
          obtain ⟨jj, hjj, hjjs⟩ := hrun 0 (Nat.succ_pos n)
          rw [Nat.add_zero] at hjj
          have hrun' : ∀ t, t < n → ∃ jj',
              safe_api_call (responses (i + 1 + t)) = Except.ok jj' ∧
              (dataOf jj').queryStatus = some "RUNNING" := by
            intro t ht
            have := hrun (t + 1) (by omega)
            rwa [show i + (t + 1) = i + 1 + t by omega] at this
          have hk' : safe_api_call (responses (i + 1 + n)) = Except.ok jk := by
            rwa [show i + (n + 1) = i + 1 + n by omega] at hk
          have ihh := ih (i + 1) b jj jk hrun' hk' hnr (by omega)
          simp only [poll_loop, eq_self_iff_true, if_true, hjj]
          rw [if_neg (by rw [hjjs]; simp)]
          simp only [hjjs]
          exact ⟨ihh.1, by simp only [numGets_get, numGets_sleep, ihh.2]⟩

/-- C1: when the remote status turns non-RUNNING at the k-th retry GET
(k at most self_retry, the initial poll and all earlier retry GETs
having reported RUNNING), poll_query_status returns that new response
at once: the total number of status GETs is exactly k + 1, which is at
most 1 + self_retry. -/
theorem poll_stops_on_non_running (self_retry delay k : Nat)
    (responses : Nat → HttpResponse) (j0 jk : JsonResp)
    (h0 : safe_api_call (responses 0) = Except.ok j0)
    (h0s : (dataOf j0).queryStatus = some "RUNNING")
    (hrun : ∀ t, 1 ≤ t → t < k → ∃ jj,
        safe_api_call (responses t) = Except.ok jj ∧
        (dataOf jj).queryStatus = some "RUNNING")
    (hk1 : 1 ≤ k) (hk2 : k ≤ self_retry)
    (hk : safe_api_call (responses k) = Except.ok jk)
    (hnr : (dataOf jk).queryStatus ≠ some "RUNNING") :
    (poll_query_status self_retry delay responses).2 = Except.ok jk ∧
    numGets (poll_query_status self_retry delay responses).1 = k + 1 ∧
    k + 1 ≤ 1 + self_retry := by
  have hrun' : ∀ t, t < k - 1 → ∃ jj,
      safe_api_call (responses (1 + t)) = Except.ok jj ∧
      (dataOf jj).queryStatus = some "RUNNING" := by
    intro t ht
    have := hrun (t + 1) (by omega) (by omega)
    rwa [show t + 1 = 1 + t by omega] at this
  have hk' : safe_api_call (responses (1 + (k - 1))) = Except.ok jk := by
    rwa [show 1 + (k - 1) = k by omega]
  have hloop := poll_loop_stops delay responses (k - 1) 1 self_retry j0 jk
    hrun' hk' hnr (by omega)
  unfold poll_query_status
  simp only [h0, h0s]
  refine ⟨hloop.1, ?_, by omega⟩
  simp only [numGets_get, numGets_sleep, hloop.2]
  omega

theorem poll_loop_zero (delay : Nat) (responses : Nat → HttpResponse)
    (i : Nat) (qs : Option String) (resp : JsonResp) :
    poll_loop delay responses 0 i qs resp = ([], Except.ok resp) := rfl

theorem poll_loop_succ (delay : Nat) (responses : Nat → HttpResponse)
    (b i : Nat) (qs : Option String) (resp : JsonResp) :
    poll_loop delay responses (b + 1) i qs resp
      = if qs = some "RUNNING" then
          (match safe_api_call (responses i) with
          | Except.error e => ([PollEvent.statusGet i], Except.error e)
          | Except.ok j =>
              if (dataOf j).queryStatus ≠ some "RUNNING" then
                ([PollEvent.statusGet i], Except.ok j)
              else
                (PollEvent.statusGet i :: PollEvent.sleep delay ::
                  (poll_loop delay responses b (i + 1)
                    ((dataOf j).queryStatus) j).1,
                 (poll_loop delay responses b (i + 1)
                    ((dataOf j).queryStatus) j).2)
            : List PollEvent × Except String JsonResp)
        else ([], Except.ok resp) := rfl

theorem poll_loop_exhausts (delay : Nat) (responses : Nat → HttpResponse)
    (hall : ∀ t, ∃ jj, safe_api_call (responses t) = Except.ok jj ∧
        (dataOf jj).queryStatus = some "RUNNING") :
    ∀ (budget i : Nat) (resp jlast : JsonResp),
    1 ≤ budget →
    safe_api_call (responses (i + budget - 1)) = Except.ok jlast →
    (poll_loop delay responses budget i (some "RUNNING") resp).2
        = Except.ok jlast ∧
    numGets (poll_loop delay responses budget i
        (some "RUNNING") resp).1 = budget := by
  intro budget
  induction budget with
  | zero => intro i resp jlast h1; omega
  | succ b ih =>
      intro i resp jlast _ hlast
      obtain ⟨jj, hjj, hjjs⟩ := hall i
      cases b with
      | zero =>
          rw [show i + 1 - 1 = i by omega] at hlast
          have : jj = jlast := by
            rw [hjj] at hlast
            exact (Except.ok.injEq _ _).mp hlast
          subst this
          rw [poll_loop_succ, if_pos rfl]
          simp only [hjj]
          rw [if_neg (by rw [hjjs]; simp)]
          simp only [poll_loop_zero]
          exact ⟨by trivial, by simp [numGets_get, numGets_sleep, numGets_nil]⟩
      | succ b' =>
          have hlast' : safe_api_call (responses (i + 1 + (b' + 1) - 1))
              = Except.ok jlast := by
            rwa [show i + 1 + (b' + 1) - 1 = i + (b' + 1 + 1) - 1 by omega]
          have ihh := ih (i + 1) jj jlast (by omega) hlast'
          rw [poll_loop_succ, if_pos rfl]
          simp only [hjj]
          rw [if_neg (by rw [hjjs]; simp)]
          simp only [hjjs]
          exact ⟨ihh.1, by simp only [numGets_get, numGets_sleep, ihh.2]⟩

/-- C2: when every status GET reports RUNNING, poll_query_status returns
without raising after exactly self_retry loop iterations on top of the
warm-up poll (1 + self_retry GETs in total), the returned snapshot is
the last RUNNING one, and run returns that RUNNING snapshot normally as
a non-error outcome. -/
theorem poll_exhaustion_returns_running (self_retry delay : Nat)
    (responses : Nat → HttpResponse) (submitResp : HttpResponse)
    (sj jlast : JsonResp)
    (hall : ∀ t, ∃ jj, safe_api_call (responses t) = Except.ok jj ∧
        (dataOf jj).queryStatus = some "RUNNING")
    (hlast : safe_api_call (responses self_retry) = Except.ok jlast)
    (hsub : safe_api_call submitResp = Except.ok sj)
    (hqid : (dataOf sj).queryId.isSome) :
    (poll_query_status self_retry delay responses).2 = Except.ok jlast ∧
    (dataOf jlast).queryStatus = some "RUNNING" ∧
    numGets (poll_query_status self_retry delay responses).1
        = 1 + self_retry ∧
    (run self_retry delay submitResp responses).2 = Except.ok jlast := by
  obtain ⟨j0, hj0, hj0s⟩ := hall 0
  have hlasts : (dataOf jlast).queryStatus = some "RUNNING" := by
    obtain ⟨jj, hjj, hjjs⟩ := hall self_retry
    rw [hjj] at hlast
    rwa [(Except.ok.injEq _ _).mp hlast] at hjjs
  have hpoll : (poll_query_status self_retry delay responses).2
        = Except.ok jlast ∧
      numGets (poll_query_status self_retry delay responses).1
        = 1 + self_retry := by
    cases hsr : self_retry with
    | zero =>
        have : j0 = jlast := by
          rw [hsr] at hlast
          rw [hj0] at hlast
          exact (Except.ok.injEq _ _).mp hlast
        subst this
        unfold poll_query_status
        simp only [hj0, hj0s, poll_loop_zero]
        exact ⟨by trivial, by simp [numGets_get, numGets_sleep, numGets_nil]⟩
    | succ b =>
        have hlast' : safe_api_call (responses (1 + (b + 1) - 1))
            = Except.ok jlast := by
          rw [show 1 + (b + 1) - 1 = b + 1 by omega, ← hsr]
          exact hlast
        have hloop := poll_loop_exhausts delay responses hall (b + 1) 1
          j0 jlast (by omega) hlast'
        unfold poll_query_status
        simp only [hj0, hj0s]
        refine ⟨hloop.1, ?_⟩
        simp only [numGets_get, numGets_sleep, hloop.2]
        omega
  refine ⟨hpoll.1, hlasts, hpoll.2, ?_⟩
  obtain ⟨qid, hqid'⟩ := Option.isSome_iff_exists.mp hqid
  unfold run
  simp only [hsub, hqid', hpoll.1, hlasts]
  norm_num

theorem poll_loop_sleeps (delay : Nat) (responses : Nat → HttpResponse) :
    ∀ (budget i : Nat) (qs : Option String) (resp : JsonResp) (d : Nat),
    PollEvent.sleep d ∈ (poll_loop delay responses budget i qs resp).1 →
    d = delay := by
  intro budget
  induction budget with
  | zero => intro i qs resp d h; simp [poll_loop_zero] at h
  | succ b ih =>
      intro i qs resp d h
      rw [poll_loop_succ] at h
      by_cases hqs : qs = some "RUNNING"
      · rw [if_pos hqs] at h
        cases hc : safe_api_call (responses i) with
        | error e => simp only [hc] at h; simp at h
        | ok j =>
            simp only [hc] at h
            by_cases hnr : (dataOf j).queryStatus ≠ some "RUNNING"
            · rw [if_pos hnr] at h
              simp at h
            · rw [if_neg hnr] at h
              simp only [List.mem_cons] at h
              rcases h with h | h | h
              · cases h
              · exact (PollEvent.sleep.injEq _ _).mp h
              · exact ih (i + 1) _ j d h
      · rw [if_neg hqs] at h
        simp at h

/-- C3: when the initial status GET succeeds, the poll trace starts with
exactly that one GET followed by the unconditional 20 time-unit warm-up
sleep — whatever status the GET observed, terminal ones included — and
every later sleep of the retry loop has the configured per-retry delay,
so the warm-up is a distinct step from the loop delay. -/
theorem poll_warmup_sleep (self_retry delay : Nat)
    (responses : Nat → HttpResponse) (j0 : JsonResp)
    (h0 : safe_api_call (responses 0) = Except.ok j0) :
    ∃ rest, (poll_query_status self_retry delay responses).1
        = PollEvent.statusGet 0 :: PollEvent.sleep 20 :: rest ∧
      ∀ d, PollEvent.sleep d ∈ rest → d = delay := by
  unfold poll_query_status
  simp only [h0]
  exact ⟨_, rfl, fun d hd => poll_loop_sleeps delay responses _ _ _ _ d hd⟩

theorem poll_loop_errors (delay : Nat) (responses : Nat → HttpResponse) :
    ∀ (n i budget : Nat) (resp : JsonResp) (e : String),
    (∀ t, t < n → ∃ jj, safe_api_call (responses (i + t)) = Except.ok jj ∧
        (dataOf jj).queryStatus = some "RUNNING") →
    safe_api_call (responses (i + n)) = Except.error e →
    n < budget →
    (poll_loop delay responses budget i (some "RUNNING") resp).2
      = Except.error e := by
  intro n
  induction n with
  | zero =>
      intro i budget resp e hrun he hb
      cases budget with
      | zero => omega
      | succ b =>
          rw [Nat.add_zero] at he
          rw [poll_loop_succ, if_pos rfl]
          simp only [he]
  | succ n ih =>
      intro i budget resp e hrun he hb
      cases budget with
      | zero => omega
      | succ b =>
          obtain ⟨jj, hjj, hjjs⟩ := hrun 0 (Nat.succ_pos n)
          rw [Nat.add_zero] at hjj
          have hrun' : ∀ t, t < n → ∃ jj',
              safe_api_call (responses (i + 1 + t)) = Except.ok jj' ∧
              (dataOf jj').queryStatus = some "RUNNING" := by
            intro t ht
            have := hrun (t + 1) (by omega)
            rwa [show i + (t + 1) = i + 1 + t by omega] at this
          have he' : safe_api_call (responses (i + 1 + n))
              = Except.error e := by
            rwa [show i + (n + 1) = i + 1 + n by omega] at he
          have ihh := ih (i + 1) b jj e hrun' he' (by omega)
          rw [poll_loop_succ, if_pos rfl]
          simp only [hjj]
          rw [if_neg (by rw [hjjs]; simp)]
          simp only [hjjs]
          exact ihh

/-- C10: every API call through safe_api_call treats only HTTP status 200
as success: for any other genuine HTTP status code (at least 100,
including other 2xx codes such as 201) and for any body that fails JSON
parsing, safe_api_call raises and the run aborts — when the failing
response is the submission, run raises its exception at once, and when
it is any reached status poll (the warm-up GET at position 0 or the
k-th retry GET, all earlier polls having reported RUNNING),
poll_query_status stops with that exception and run propagates it. -/
theorem safe_api_call_strict_200 (r : HttpResponse)
    (hcode : 100 ≤ r.status_code) :
    ((∃ j, safe_api_call r = Except.ok j) ↔
      (r.status_code = 200 ∧ ∃ d, r.json = Except.ok d))
    ∧ (∀ e self_retry delay responses,
        safe_api_call r = Except.error e →
        (run self_retry delay r responses).2 = Except.error (some e))
    ∧ (∀ e self_retry delay (responses : Nat → HttpResponse)
        (submitResp : HttpResponse) (sj : JsonResp) (k : Nat),
        safe_api_call submitResp = Except.ok sj →
        (dataOf sj).queryId.isSome →
        k ≤ self_retry →
        (∀ t, t < k → ∃ jj, safe_api_call (responses t) = Except.ok jj ∧
            (dataOf jj).queryStatus = some "RUNNING") →
        responses k = r →
        safe_api_call r = Except.error e →
        (poll_query_status self_retry delay responses).2
            = Except.error e ∧
        (run self_retry delay submitResp responses).2
            = Except.error (some e)) := by
  refine ⟨?_, ?_, ?_⟩
  · constructor
    · rintro ⟨j, hj⟩
      unfold safe_api_call at hj
      by_cases hz : (custom_json_response r).exitcode ≠ 0
      · simp [hz] at hj
      · push_neg at hz
        unfold custom_json_response at hz
        cases hjson : r.json with
        | ok d =>
            by_cases h200 : r.status_code = 200
            · exact ⟨h200, d, rfl⟩
            · rw [hjson] at hz
              simp [h200] at hz
              omega
        | error ex => rw [hjson] at hz; simp at hz
    · rintro ⟨h200, d, hjson⟩
      refine ⟨custom_json_response r, ?_⟩
      unfold safe_api_call custom_json_response
      simp [hjson, h200]
  · intro e self_retry delay responses he
    unfold run
    simp only [he]
  · intro e self_retry delay responses submitResp sj k hsub hqid hk
      hrun hr he
    have hek : safe_api_call (responses k) = Except.error e := by
      rw [hr]; exact he
    have hpoll : (poll_query_status self_retry delay responses).2
        = Except.error e := by
      cases k with
      | zero =>
          unfold poll_query_status
          simp only [hek]
      | succ m =>
          obtain ⟨j0, hj0, hj0s⟩ := hrun 0 (Nat.succ_pos m)
          have hrun' : ∀ t, t < m → ∃ jj,
              safe_api_call (responses (1 + t)) = Except.ok jj ∧
              (dataOf jj).queryStatus = some "RUNNING" := by
            intro t ht
            have := hrun (t + 1) (by omega)
            rwa [show t + 1 = 1 + t by omega] at this
          have hek' : safe_api_call (responses (1 + m))
              = Except.error e := by
            rwa [show 1 + m = m + 1 by omega]
          unfold poll_query_status
          simp only [hj0, hj0s]
          exact poll_loop_errors delay responses m 1 self_retry j0 e
            hrun' hek' (by omega)
    refine ⟨hpoll, ?_⟩
    obtain ⟨qid, hqid'⟩ := Option.isSome_iff_exists.mp hqid
    unfold run
    simp only [hsub, hqid', hpoll]

/-- C10 witness: a response with status 201 and a parsable body is
rejected by safe_api_call; as a submission it makes run abort, and as
the first retry GET after a RUNNING warm-up poll it makes both
poll_query_status and run abort with the same exception. -/
theorem safe_api_call_strict_200_witness :
    ((∃ j, safe_api_call created_response = Except.ok j) ↔
      (created_response.status_code = 200 ∧
        ∃ d, created_response.json = Except.ok d))
    ∧ (run 1 5 created_response (fun _ => status_running_response)).2
        = Except.error (some "API call failed: Failed with error Created")
    ∧ (poll_query_status 1 5 poll_fail_responses).2
        = Except.error "API call failed: Failed with error Created"
    ∧ (run 1 5 submit_ok_response poll_fail_responses).2
        = Except.error
            (some "API call failed: Failed with error Created") := by
  have h := safe_api_call_strict_200 created_response
    (by norm_num [created_response])
  have h3 := h.2.2 "API call failed: Failed with error Created" 1 5
    poll_fail_responses submit_ok_response submit_json 1 rfl rfl
    (by decide)
    (by
      intro t ht
      have ht0 : t = 0 := by omega
      subst ht0
      exact ⟨running_json, rfl, rfl⟩)
    rfl rfl
  exact ⟨h.1,
    h.2.1 "API call failed: Failed with error Created" 1 5
      (fun _ => status_running_response) rfl,
    h3.1, h3.2⟩

/-- C6 counterexample: a query executor constructed without retry
parameters gets the constructor defaults retry 5 and delay 60, not 20
retries and a 15 time-unit delay. -/
theorem executor_defaults_not_20_15 :
    (executor_init none none none none none).retry = 5 ∧
    (executor_init none none none none none).delay = 60 ∧
    ¬((executor_init none none none none none).retry = 20 ∧
      (executor_init none none none none none).delay = 15) := by
  refine ⟨rfl, rfl, ?_⟩
  intro h
  simp [executor_init] at h

/-- C6 amended: the PlaygroundQueryExecutor constructor defaults are 5
retries and a 60 time-unit delay; the 20 retries and 15 time-unit delay
(a 300 time-unit ceiling excluding the warm-up) are the job-level
defaults that main applies when the job invocation does not supply
query_status_retry and query_status_retry_delay, and main always passes
them to the executor explicitly. -/
theorem retry_defaults_by_layer :
    (executor_init none none none none none).retry = 5 ∧
    (executor_init none none none none none).delay = 60 ∧
    (main_executor none none).retry = 20 ∧
    (main_executor none none).delay = 15 ∧
    (main_executor none none).retry * (main_executor none none).delay
      = 300 :=
  ⟨rfl, rfl, rfl, rfl, rfl⟩

/-- C7 counterexample: with the retry budget exhausted on a RUNNING
query, fetch_query_results raises Exception with the still-running
text, and with a remote FAILED snapshot whose Message carries the same
text it raises an identical exception — the two outcomes are the same
generic exception kind and cannot be told apart by type. -/
theorem still_running_error_not_distinct :
    (fetch_query_results 1 5 submit_ok_response
        (fun _ => status_running_response) (fun _ => "")).2
      = Except.error (some "Query still running after retries.") ∧
    (fetch_query_results 1 5 submit_ok_response
        (fun _ => status_failed_still_response) (fun _ => "")).2
      = Except.error (some "Query still running after retries.") :=
  ⟨rfl, rfl⟩

/-- C7 amended: both failure outcomes are the same generic Exception
kind, distinguishable only by the message argument: on a RUNNING
snapshot surviving run, fetch_query_results raises Exception with the
fixed still-running text, and when run itself raises (as it does for a
FAILED status, carrying the optional remote message), fetch_query_results
propagates that very exception. -/
theorem fetch_error_kinds (self_retry delay : Nat)
    (submitResp : HttpResponse) (responses : Nat → HttpResponse)
    (download : String → String) :
    (∀ j, (run self_retry delay submitResp responses).2 = Except.ok j →
      (dataOf j).queryStatus = some "RUNNING" →
      (fetch_query_results self_retry delay submitResp responses
          download).2
        = Except.error (some "Query still running after retries."))
    ∧ (∀ e, (run self_retry delay submitResp responses).2
          = Except.error e →
      (fetch_query_results self_retry delay submitResp responses
          download).2 = Except.error e) := by
  constructor
  · intro j hrun hst
    unfold fetch_query_results
    simp only [hrun]
    unfold fetch_classify
    simp only [hst]
    rw [if_neg (by decide), if_true]
  · intro e hrun
    unfold fetch_query_results
    simp only [hrun]

/-- C7 amended witness: the still-running branch at the concrete
exhausted-RUNNING scenario. -/
theorem fetch_error_kinds_witness :
    (fetch_query_results 1 5 submit_ok_response
        (fun _ => status_running_response) (fun _ => "")).2
      = Except.error (some "Query still running after retries.") :=
  (fetch_error_kinds 1 5 submit_ok_response
    (fun _ => status_running_response) (fun _ => "")).1 running_json rfl rfl

/-- C8 counterexample: on a FAILED snapshot with no remote Message, run
raises Exception(None) — the exception argument is the Python None, not
a generic failure notice. -/
theorem run_failed_without_message_payload :
    (run 1 5 submit_ok_response
        (fun _ => status_failed_no_msg_response)).2
      = Except.error none := rfl

/-- C8 amended: when the final polled status is neither SUCCEEDED nor
RUNNING (FAILED or unrecognized), run raises Exception whose argument
is exactly the optional remote Message: the message itself when
present, and None — not a generic failure notice — when absent.  (The
Unknown error default text exists only in the FAILED branch of
fetch_query_results, which run makes unreachable.) -/
theorem run_failure_message (self_retry delay : Nat)
    (submitResp : HttpResponse) (responses : Nat → HttpResponse)
    (sj j : JsonResp) (st : String)
    (hsub : safe_api_call submitResp = Except.ok sj)
    (hqid : (dataOf sj).queryId.isSome)
    (hpoll : (poll_query_status self_retry delay responses).2
      = Except.ok j)
    (hst : (dataOf j).queryStatus = some st)
    (hs1 : st ≠ "SUCCEEDED") (hs2 : st ≠ "RUNNING") :
    (run self_retry delay submitResp responses).2
      = Except.error ((dataOf j).message) := by
  obtain ⟨qid, hqid'⟩ := Option.isSome_iff_exists.mp hqid
  unfold run
  simp only [hsub, hqid', hpoll, hst]
  rw [if_neg hs1, if_neg hs2]

/-- C8 amended witness: a FAILED snapshot carrying the remote message
syntax error makes run raise Exception with exactly that message. -/
theorem run_failure_message_witness :
    (run 1 5 submit_ok_response
        (fun _ => status_failed_msg_response)).2
      = Except.error (some "syntax error") :=
  run_failure_message 1 5 submit_ok_response
    (fun _ => status_failed_msg_response)
    submit_json
    (JsonResp.mk 0 "Success"
      (some (ApiData.mk none (some "FAILED") (some "syntax error") none)))
    "FAILED" rfl rfl rfl rfl (by decide) (by decide)

/-- C9 counterexample: with an unrecognized terminal status (CANCELLED,
Message halted), fetch_query_results raises — run raises before the
soft log-and-return branch of fetch_query_results can run — instead of
returning no data normally. -/
theorem fetch_unknown_status_raises :
    (fetch_query_results 1 5 submit_ok_response
        (fun _ => status_cancelled_response) (fun _ => "")).2
      = Except.error (some "halted") := rfl

/-- C9 amended: run never returns a snapshot whose status is other than
SUCCEEDED or RUNNING (it raises instead, so an unknown polled status
makes fetch_query_results raise too), and the soft branch of
fetch_query_results — which on a snapshot with an unknown status would
print the status and message and return no data without raising — is
therefore unreachable through run. -/
theorem fetch_unknown_status_amended :
    (∀ (self_retry delay : Nat) (submitResp : HttpResponse)
        (responses : Nat → HttpResponse) (j : JsonResp),
      (run self_retry delay submitResp responses).2 = Except.ok j →
      (dataOf j).queryStatus = some "SUCCEEDED" ∨
        (dataOf j).queryStatus = some "RUNNING")
    ∧ (∀ (download : String → String) (j : JsonResp) (st : String),
      (dataOf j).queryStatus = some st → st ≠ "SUCCEEDED" →
      st ≠ "RUNNING" → st ≠ "FAILED" →
      fetch_classify download j
        = (["Query Status: " ++ st ++ " | Message: "
            ++ ((dataOf j).message.getD "")], Except.ok none)) := by
  constructor
  · intro self_retry delay submitResp responses j h
    unfold run at h
    cases hsub : safe_api_call submitResp with
    | error e =>
        simp only [hsub] at h
        exact Except.noConfusion h
    | ok sj =>
        simp only [hsub] at h
        cases hqid : (dataOf sj).queryId with
        | none =>
            simp only [hqid] at h
            exact Except.noConfusion h
        | some qid =>
            simp only [hqid] at h
            cases hp : (poll_query_status self_retry delay responses).2
                with
            | error e =>
                simp only [hp] at h
                exact Except.noConfusion h
            | ok jp =>
                simp only [hp] at h
                cases hqs : (dataOf jp).queryStatus with
                | none =>
                    simp only [hqs] at h
                    exact Except.noConfusion h
                | some st =>
                    simp only [hqs] at h
                    by_cases hs1 : st = "SUCCEEDED"
                    · rw [if_pos hs1] at h
                      simp only [Except.ok.injEq] at h
                      subst h
                      left
                      rw [hqs, hs1]
                    · rw [if_neg hs1] at h
                      by_cases hs2 : st = "RUNNING"
                      · rw [if_pos hs2] at h
                        simp only [Except.ok.injEq] at h
                        subst h
                        right
                        rw [hqs, hs2]
                      · rw [if_neg hs2] at h
                        simp at h
  · intro download j st hst hs1 hs2 hs3
    unfold fetch_classify
    simp only [hst]
    rw [if_neg hs1, if_neg hs2, if_neg hs3]

/-- C9 amended witness: a RUNNING snapshot survives run with a status in
the permitted pair, and the soft branch applied directly to a CANCELLED
snapshot prints and returns no data. -/
theorem fetch_unknown_status_amended_witness :
    ((dataOf running_json).queryStatus = some "SUCCEEDED" ∨
      (dataOf running_json).queryStatus = some "RUNNING") ∧
    fetch_classify (fun _ => "") cancelled_json
      = (["Query Status: " ++ "CANCELLED" ++ " | Message: "
          ++ ((dataOf cancelled_json).message.getD "")],
         Except.ok none) :=
  ⟨fetch_unknown_status_amended.1 1 5 submit_ok_response
      (fun _ => status_running_response) running_json rfl,
   fetch_unknown_status_amended.2 (fun _ => "") cancelled_json
      "CANCELLED" rfl (by decide) (by decide) (by decide)⟩

/-- C1 witness: with one permitted retry, a RUNNING warm-up poll and a
SUCCEEDED first retry GET, polling returns the SUCCEEDED response after
exactly two GETs. -/
theorem poll_stops_on_non_running_witness :
    (poll_query_status 1 5 early_stop_responses).2
      = Except.ok succeeded_json ∧
    numGets (poll_query_status 1 5 early_stop_responses).1 = 1 + 1 ∧
    1 + 1 ≤ 1 + 1 :=
  poll_stops_on_non_running 1 5 1 early_stop_responses running_json
    succeeded_json rfl rfl (by intro t h1 h2; omega) (by decide)
    (by decide) rfl (by decide)

/-- C2 witness: an always-RUNNING remote with two permitted retries:
three GETs in total, the RUNNING snapshot returned, and run returning
it without error. -/
theorem poll_exhaustion_returns_running_witness :
    (poll_query_status 2 5 (fun _ => status_running_response)).2
      = Except.ok running_json ∧
    (dataOf running_json).queryStatus = some "RUNNING" ∧
    numGets (poll_query_status 2 5
      (fun _ => status_running_response)).1 = 1 + 2 ∧
    (run 2 5 submit_ok_response (fun _ => status_running_response)).2
      = Except.ok running_json :=
  poll_exhaustion_returns_running 2 5 (fun _ => status_running_response)
    submit_ok_response submit_json running_json
    (fun _ => ⟨running_json, rfl, rfl⟩) rfl rfl rfl

/-- C3 witness: the warm-up trace shape at a concrete RUNNING remote. -/
theorem poll_warmup_sleep_witness :
    ∃ rest, (poll_query_status 1 5
        (fun _ => status_running_response)).1
      = PollEvent.statusGet 0 :: PollEvent.sleep 20 :: rest ∧
      ∀ d, PollEvent.sleep d ∈ rest → d = 5 :=
  poll_warmup_sleep 1 5 (fun _ => status_running_response)
    running_json rfl

/-- C4 witness: the round trip at the concrete query SELECT 1. -/
theorem payload_query_string_roundtrip_witness :
    ∃ p enc,
      build_query_payload "SELECT 1" "primary" "athena" "no" = some p ∧
      p.lookup "QueryString" = some enc ∧
      ascii_decode (b64DecodeChunks enc.data) = "SELECT 1" :=
  payload_query_string_roundtrip "SELECT 1" "primary" "athena" "no"
    (by decide)

/-- C5 witness: the field sets at the concrete query SELECT 1 with the
alternate target redshift. -/
theorem payload_field_sets_witness :
    ∃ p1 p2,
      build_query_payload "SELECT 1" "primary" "athena" "no" = some p1 ∧
      build_query_payload "SELECT 1" "primary" "redshift" "no"
        = some p2 ∧
      p1.map Prod.fst = ["QueryString", "Encoding", "WorkGroup",
        "AssumeRole"] ∧
      p2.map Prod.fst = ["QueryString", "Encoding",
        "QueryTargetLocation"] ∧
      (∀ k, (k ∈ p1.map Prod.fst ∧ k ∈ p2.map Prod.fst) ↔
        (k = "QueryString" ∨ k = "Encoding")) :=
  payload_field_sets "SELECT 1" "primary" "redshift" "no"
    (by decide) (by decide)
